import Mathlib

/-!
Shallow embedding of the appointment backend in `src/functions/index.js`
(Sr-Drachen/Enfoque).  The file embeds the admission and moderation engine
(`crearCita`, `actualizarCita`, `consultarCitas`), the authorization check
(`esAdministrador`), and the notification paths (`notificarCambioCita`,
`notificarNuevoEscenario`, `recordatorioDiario`), together with the date-fns
calendar helpers (`startOfDay`, `endOfDay`, `addDays`, `subMonths`) they use.

Documents are modelled as association lists of fields; timestamps are
milliseconds since the Unix epoch as integers, with the calendar arithmetic
(civil-from-days / days-from-civil) spelled out so that `subMonths` follows
date-fns semantics (subtract one calendar month, clamping the day of month).
Fallible paths return `Except` with the platform error code.
-/

namespace Enfoque

/-- Field values stored in a document: strings, timestamps (ms), booleans. -/
inductive Val
  | s (v : String)
  | t (ms : Int)
  | b (v : Bool)
  deriving DecidableEq, Repr

/-- A document is a finite association list from field names to values
(JS objects have unique keys; operations below treat the first binding
as the value, matching object-key semantics). -/
abbrev Doc := List (String × Val)

/-- Read a field of a document (JS property access; `none` = `undefined`). -/
def Doc.get (d : Doc) (k : String) : Option Val :=
  (d.find? (fun p => p.1 = k)).map (fun p => p.2)

/-- Write one field of a document, replacing any previous binding. -/
def Doc.set (d : Doc) (k : String) (v : Val) : Doc :=
  (k, v) :: d.filter (fun p => ¬ p.1 = k)

/-- Firestore `update` with a partial field map: each given field overwrites
the stored one (spread / merge semantics). -/
def Doc.merge (d campos : Doc) : Doc :=
  campos.foldl (fun acc p => acc.set p.1 p.2) d

/-- Error codes of `functions.https.HttpsError` used by the program. -/
inductive ECode
  | unauthenticated
  | permissionDenied
  | invalidArgument
  | notFound
  | alreadyExists
  | failedPrecondition
  | internal
  deriving DecidableEq, Repr

/-! ## Calendar arithmetic (date-fns helpers, fixed time zone)

The program manipulates dates with date-fns `startOfDay`, `endOfDay`,
`addDays` and `subMonths`.  We model instants as integer milliseconds since
the epoch in a fixed time zone, and implement the civil-calendar conversions
so `subMonths` has its real meaning (one calendar month back, day clamped to
the target month's length), not an approximation by 30 days. -/

def msPerDay : Int := 86400000

/-- date-fns `startOfDay`: midnight of the instant's calendar day. -/
def startOfDay (t : Int) : Int := (Int.fdiv t msPerDay) * msPerDay

/-- date-fns `endOfDay`: 23:59:59.999 of the instant's calendar day. -/
def endOfDay (t : Int) : Int := startOfDay t + (msPerDay - 1)

/-- date-fns `addDays`. -/
def addDays (t : Int) (n : Int) : Int := t + n * msPerDay

/-- Gregorian leap year. -/
def isLeap (y : Int) : Bool := (y % 4 = 0 ∧ ¬ y % 100 = 0) ∨ y % 400 = 0

/-- Days in a month of the proleptic Gregorian calendar (m = 1..12). -/
def daysInMonth (y m : Int) : Int :=
  if m = 2 then (if isLeap y then 29 else 28)
  else if m = 4 ∨ m = 6 ∨ m = 9 ∨ m = 11 then 30
  else 31

/-- Civil date (y, m, d) of a day count since 1970-01-01 (standard
era-based conversion for the proleptic Gregorian calendar). -/
def civilFromDays (z0 : Int) : Int × Int × Int :=
  let z := z0 + 719468
  let era := Int.fdiv z 146097
  let doe := z - era * 146097
  let yoe := Int.fdiv (doe - Int.fdiv doe 1460 + Int.fdiv doe 36524 - Int.fdiv doe 146096) 365
  let y := yoe + era * 400
  let doy := doe - (365 * yoe + Int.fdiv yoe 4 - Int.fdiv yoe 100)
  let mp := Int.fdiv (5 * doy + 2) 153
  let d := doy - Int.fdiv (153 * mp + 2) 5 + 1
  let m := mp + (if mp < 10 then 3 else -9)
  (if m ≤ 2 then y + 1 else y, m, d)

/-- Day count since 1970-01-01 of a civil date (inverse of `civilFromDays`). -/
def daysFromCivil (y0 m d : Int) : Int :=
  let y := if m ≤ 2 then y0 - 1 else y0
  let era := Int.fdiv y 400
  let yoe := y - era * 400
  let doy := Int.fdiv (153 * (m + (if m > 2 then -3 else 9)) + 2) 5 + d - 1
  let doe := yoe * 365 + Int.fdiv yoe 4 - Int.fdiv yoe 100 + doy
  era * 146097 + doe - 719468

/-- Millisecond instant of a civil date plus a time of day (helper for
concrete test instants). -/
def instant (y m d msOfDay : Int) : Int := daysFromCivil y m d * msPerDay + msOfDay

/-- date-fns `addMonths`: move the civil month by `amount`, clamping the day
of month to the length of the target month, keeping the time of day. -/
def addMonths (t : Int) (amount : Int) : Int :=
  let day := Int.fdiv t msPerDay
  let msOfDay := t - day * msPerDay
  let c := civilFromDays day
  let mm := c.2.1 - 1 + amount
  let y2 := c.1 + Int.fdiv mm 12
  let m2 := Int.emod mm 12 + 1
  let d2 := min c.2.2 (daysInMonth y2 m2)
  daysFromCivil y2 m2 d2 * msPerDay + msOfDay

/-- date-fns `subMonths`. -/
def subMonths (t : Int) (amount : Int) : Int := addMonths t (-amount)

/-! ## Store model

The Firestore collections the embedded functions touch.  `admins` holds the
`uidClient` values of the documents of the `Admin` collection; `citas` pairs
each appointment document with its id; `dispositivos` and `notificaciones`
are the device registrations and the append-only notification log. -/

structure DB where
  citas : List (String × Doc)
  admins : List String
  dispositivos : List Doc
  notificaciones : List Doc
  deriving DecidableEq, Repr

/-- Replace the appointment `id` by merging `campos` into its document
(Firestore `update`). -/
def DB.updateCita (db : DB) (id : String) (campos : Doc) : DB :=
  { db with citas := db.citas.map (fun p => if p.1 = id then (p.1, p.2.merge campos) else p) }

/-! ## `esAdministrador` (authorization check)

`esAdministrador(uid)`: if `!uid` return false without querying; otherwise
query `Admin` where `uidClient == uid` and return whether the result is
non-empty; any query error is caught and mapped to false (fail closed).
The store lookup is abstracted as a fallible function so that both the
error path and the no-lookup path are visible. -/

def esAdministrador (uid : Option String) (query : String → Except Unit (List String)) : Bool :=
  match uid with
  | none => false
  | some u =>
    if u = "" then false
    else
      match query u with
      | Except.error _ => false
      | Except.ok docs => !docs.isEmpty

/-- The same check against an in-model store whose lookups succeed, as used
inside the request handlers: membership of the caller in `Admin.uidClient`. -/
def esAdminDB (db : DB) (uid : String) : Bool :=
  if uid = "" then false else db.admins.contains uid

/-! ## `crearCita` (appointment creation, lines 641-688)

The handler: reject unauthenticated callers; `validarTipo(data.fecha,
'string')` rejects a missing or non-string date with `invalid-argument`;
parse the date (`new Date(data.fecha)`, which may yield an invalid date);
gate 1 queries the caller's rejected appointments with
`createdAt >= subMonths(now, 1)` and fails with `failed-precondition` when
at least 2; gate 2 queries the caller's appointments with `fecha` in
`[startOfDay, endOfDay]` of the requested date and fails with
`already-exists` when any; otherwise the new document is written with the
caller stamped as owner, both statuses `espera`, the date normalized to a
timestamp and server-time created/updated stamps.  The outer catch keeps
`error.code` when present and uses `internal` otherwise, so an invalid
date reaching the Firestore query serializer surfaces as `internal`.

The `fecha` payload field is one of: absent (`undefined`), present but not
a string, or a string whose JS `Date` parse either yields an instant or an
invalid date; the parse outcome is part of the input since string-to-date
parsing is the JS engine's. -/

inductive JsDateField
  | undef
  | nonString
  | strVal (parsed : Option Int)
  deriving DecidableEq, Repr

/-- Store events of one `crearCita` run, in order: the gate-1 (rejection
history) query, the gate-2 (same-day) query, the appointment write. -/
inductive Ev
  | queryRechazos
  | queryDia
  | writeCita
  deriving DecidableEq, Repr

instance {ε α : Type} [DecidableEq ε] [DecidableEq α] : DecidableEq (Except ε α) := fun a b =>
  match a, b with
  | Except.error e, Except.error e' =>
    if h : e = e' then Decidable.isTrue (by simp [h]) else Decidable.isFalse (by simp [h])
  | Except.error _, Except.ok _ => Decidable.isFalse (by simp)
  | Except.ok _, Except.error _ => Decidable.isFalse (by simp)
  | Except.ok x, Except.ok y =>
    if h : x = y then Decidable.isTrue (by simp [h]) else Decidable.isFalse (by simp [h])

/-- Result of a `crearCita` run: the outcome (new store and created
document on success) and the ordered list of store events performed. -/
structure CrearOut where
  res : Except ECode (DB × Doc)
  trace : List Ev
  deriving DecidableEq, Repr

/-- Gate 1 query: the caller's appointments with `estado_solicitud ==
'rechazada'` and `createdAt >= subMonths(now, 1)`. -/
def rechazosRecientes (db : DB) (uid : String) (now : Int) : List (String × Doc) :=
  db.citas.filter (fun p =>
    p.2.get "uid_cliente" == some (Val.s uid) &&
    p.2.get "estado_solicitud" == some (Val.s "rechazada") &&
    match p.2.get "createdAt" with
    | some (Val.t c) => subMonths now 1 ≤ c
    | _ => false)

/-- The rejection window as the specification words it — creation
timestamp within the trailing 30 days, exclusive lower bound `now` minus
30 days — written only to compare against `rechazosRecientes`, which is
the query the code actually issues (`createdAt >= subMonths(now, 1)`, an
inclusive calendar-month bound). -/
def rechazosUlt30Dias (db : DB) (uid : String) (now : Int) : List (String × Doc) :=
  db.citas.filter (fun p =>
    p.2.get "uid_cliente" == some (Val.s uid) &&
    p.2.get "estado_solicitud" == some (Val.s "rechazada") &&
    match p.2.get "createdAt" with
    | some (Val.t c) => now - 30 * msPerDay < c
    | _ => false)

/-- Gate 2 query: the caller's appointments with `fecha` in
`[startOfDay f, endOfDay f]`, any status. -/
def citasDelDia (db : DB) (uid : String) (f : Int) : List (String × Doc) :=
  db.citas.filter (fun p =>
    p.2.get "uid_cliente" == some (Val.s uid) &&
    match p.2.get "fecha" with
    | some (Val.t d) => startOfDay f ≤ d && d ≤ endOfDay f
    | _ => false)

/-- The document persisted on success: the payload spread first, then
`uid_cliente` stamped to the caller, `fecha` normalized to the parsed
instant, both statuses `espera`, and server timestamps. -/
def nuevaCitaDoc (otros : Doc) (uid : String) (f : Int) (now : Int) : Doc :=
  (((((otros.set "uid_cliente" (Val.s uid)).set "fecha" (Val.t f)).set
      "estado_solicitud" (Val.s "espera")).set
      "estado_atendida" (Val.s "espera")).set
      "createdAt" (Val.t now)).set "updatedAt" (Val.t now)

def crearCita (db : DB) (now : Int) (auth : Option String) (fecha : JsDateField)
    (otros : Doc) : CrearOut :=
  match auth with
  | none => ⟨Except.error ECode.unauthenticated, []⟩
  | some uid =>
    match fecha with
    | JsDateField.undef => ⟨Except.error ECode.invalidArgument, []⟩
    | JsDateField.nonString => ⟨Except.error ECode.invalidArgument, []⟩
    | JsDateField.strVal parsed =>
      if (rechazosRecientes db uid now).length ≥ 2 then
        ⟨Except.error ECode.failedPrecondition, [Ev.queryRechazos]⟩
      else
        match parsed with
        | none => ⟨Except.error ECode.internal, [Ev.queryRechazos]⟩
        | some f =>
          if ¬ (citasDelDia db uid f).isEmpty then
            ⟨Except.error ECode.alreadyExists, [Ev.queryRechazos, Ev.queryDia]⟩
          else
            let d := nuevaCitaDoc otros uid f now
            ⟨Except.ok ({ db with citas := db.citas ++ [(toString db.citas.length, d)] }, d),
             [Ev.queryRechazos, Ev.queryDia, Ev.writeCita]⟩

/-! ## `actualizarCita` (appointment update, lines 165-195)

Destructure `{id, ...campos}`, resolve admin status, load the appointment
(`not-found` when absent).  An administrator's update applies `campos` plus
a refreshed `updatedAt`.  A non-admin must be the owning client
(`permission-denied` otherwise) and may only submit the exact single field
`{estado_solicitud: 'rechazada'}`, in which case that field plus `updatedAt`
is written; any other field set is `permission-denied`.  (The duplicated
copy of the handler at lines 690-726 has the same decision logic inside an
outer catch that re-tags raised errors.) -/

def actualizarCita (db : DB) (now : Int) (uid : String) (id : String) (campos : Doc) :
    Except ECode DB :=
  let isAdmin := esAdminDB db uid
  match db.citas.find? (fun p => p.1 = id) with
  | none => Except.error ECode.notFound
  | some pc =>
    if isAdmin then
      Except.ok (db.updateCita id (campos.set "updatedAt" (Val.t now)))
    else if ¬ pc.2.get "uid_cliente" = some (Val.s uid) then
      Except.error ECode.permissionDenied
    else if campos.length = 1 ∧ campos.get "estado_solicitud" = some (Val.s "rechazada") then
      Except.ok (db.updateCita id [("estado_solicitud", Val.s "rechazada"), ("updatedAt", Val.t now)])
    else
      Except.error ECode.permissionDenied

/-! ## `consultarCitas` (appointment listing, lines 197-228 / 728-764) -/

/-- Sort key of the `orderBy('fecha', 'asc')` clause (appointment dates are
stored as timestamps; documents without the ordered field are excluded by
the store, see `consultarCitas`). -/
def fechaKey (p : String × Doc) : Int :=
  match p.2.get "fecha" with
  | some (Val.t f) => f
  | _ => 0

/-- Stable insertion into a list ordered by `fechaKey`. -/
def insertFecha (x : String × Doc) : List (String × Doc) → List (String × Doc)
  | [] => [x]
  | y :: ys => if fechaKey x ≤ fechaKey y then x :: y :: ys else y :: insertFecha x ys

/-- Stable sort by `fechaKey` (the store's `orderBy('fecha', 'asc')`). -/
def sortByFecha (l : List (String × Doc)) : List (String × Doc) :=
  l.foldr insertFecha []

/-- Arguments of `consultarCitas`: admin-only filters, page size (`0` means
the falsy `limit` that disables `query.limit`), and the pagination cursor. -/
structure ConsultaArgs where
  uid_cliente_consulta : Option String
  fecha : Option Int
  limit : Nat
  lastDocId : Option String
  deriving DecidableEq, Repr

/-- The `where` clauses of the listing query: an administrator may filter
by day window or by client; every other caller is restricted to
`uid_cliente == uid` and `estado_solicitud != 'rechazada'` regardless of
the supplied filters (the store's `!=` matches only documents that have
the field with a different value). -/
def consultaBase (db : DB) (uid : String) (a : ConsultaArgs) : List (String × Doc) :=
  if esAdminDB db uid then
    match a.fecha with
    | some d => db.citas.filter (fun p =>
        match p.2.get "fecha" with
        | some (Val.t f) => startOfDay d ≤ f && f ≤ endOfDay d
        | _ => false)
    | none =>
      match a.uid_cliente_consulta with
      | some c => db.citas.filter (fun p => p.2.get "uid_cliente" == some (Val.s c))
      | none => db.citas
  else
    db.citas.filter (fun p =>
      p.2.get "uid_cliente" == some (Val.s uid) &&
      match p.2.get "estado_solicitud" with
      | some v => !(v == Val.s "rechazada")
      | none => false)

/-- `orderBy('fecha', 'asc')`: documents lacking the ordered field are
excluded by the store; the rest are sorted by it. -/
def consultaOrdenada (db : DB) (uid : String) (a : ConsultaArgs) : List (String × Doc) :=
  sortByFecha ((consultaBase db uid a).filter (fun p => (p.2.get "fecha").isSome))

/-- `startAfter(lastDoc)` when the cursor document exists: the results
after the cursor document's position in the ordered sequence. -/
def consultaPosicionada (db : DB) (uid : String) (a : ConsultaArgs) : List (String × Doc) :=
  match a.lastDocId with
  | none => consultaOrdenada db uid a
  | some lid =>
    if ((db.citas.find? (fun p => p.1 = lid)).isSome : Bool) then
      ((consultaOrdenada db uid a).dropWhile (fun p => !(p.1 = lid))).drop 1
    else consultaOrdenada db uid a

/-- The listing result: filtered, ordered, positioned after the cursor,
and truncated to `limit` (a falsy `limit` disables truncation). -/
def consultarCitas (db : DB) (uid : String) (a : ConsultaArgs) : List (String × Doc) :=
  if a.limit = 0 then consultaPosicionada db uid a
  else (consultaPosicionada db uid a).take a.limit

/-! ## Notification paths -/

/-- JS truthiness of a stored value. -/
def Val.truthy : Val → Bool
  | Val.s v => v ≠ ""
  | Val.t ms => ms ≠ 0
  | Val.b v => v

/-- JS `v || dflt` on a possibly-missing value. -/
def jsOr (v : Option Val) (dflt : Val) : Val :=
  match v with
  | some w => if w.truthy then w else dflt
  | none => dflt

/-- JS template-string rendering of a stored value. -/
def Val.asStr : Val → String
  | Val.s v => v
  | Val.t ms => toString ms
  | Val.b v => toString v

/-- JS template-string rendering of a possibly-missing value. -/
def jsStr (v : Option Val) : String :=
  match v with
  | some w => w.asStr
  | none => "undefined"

/-- A persisted notification record, as written by `guardarNotificacion`
(recipient, title, category tag, body, optional image; the server
timestamp is left implicit). -/
structure Notif where
  uid_usuario : Option Val
  titulo : Val
  tipo : String
  mensaje : String
  imagen : Option Val
  deriving DecidableEq, Repr

/-- One `messaging.sendEachForMulticast` invocation: the token list and
the notification payload (image absent where the call site sends none). -/
structure MulticastCall where
  tokens : List Val
  title : String
  body : String
  image : Option Val
  deriving DecidableEq, Repr

/-- Resolve a user's device push tokens: `Dispositivos` where
`uid_usuario == uidV` (and `activo == true` only when the call site adds
that clause), collecting `token_fcm` and discarding falsy ones. -/
def tokensDe (dispositivos : List Doc) (uidV : Option Val) (soloActivos : Bool) : List Val :=
  ((dispositivos.filter (fun d =>
      d.get "uid_usuario" == uidV &&
      (!soloActivos || d.get "activo" == some (Val.b true)))).filterMap
    (fun d => d.get "token_fcm")).filter Val.truthy

/-- `notificarCambioCita` (lines 905-943): on an appointment update, do
nothing when `estado_solicitud` is unchanged; when it becomes `aceptada` or
`rechazada`, persist one notification record (recipient = the appointment's
client, title = the scenario name with fallback `"Cita"`, category
`Confirmación`, templated body, image = the scenario's principal image) and
make one multicast call to the client's active-device tokens when any
resolve; any other new status produces nothing.  Returns the records
appended and the multicast calls made. -/
def notificarCambioCita (oldD newD : Doc) (dispositivos : List Doc) :
    List Notif × List MulticastCall :=
  if newD.get "estado_solicitud" == oldD.get "estado_solicitud" then ([], [])
  else
    let uidV := newD.get "uid_cliente"
    let tituloV := jsOr (newD.get "escenario_nombre") (Val.s "Cita")
    let emit (mensaje : String) : List Notif × List MulticastCall :=
      let imagenV := newD.get "escenario_img_principal"
      let tokens := tokensDe dispositivos uidV true
      ([⟨uidV, tituloV, "Confirmación", mensaje, imagenV⟩],
       if tokens.length > 0 then
         [⟨tokens, tituloV.asStr, mensaje, some (jsOr imagenV (Val.s ""))⟩]
       else [])
    if newD.get "estado_solicitud" == some (Val.s "aceptada") then
      emit ("Tu cita para " ++ tituloV.asStr ++ " ha sido confirmada.")
    else if newD.get "estado_solicitud" == some (Val.s "rechazada") then
      emit ("Tu cita para " ++ tituloV.asStr ++ " ha sido rechazada.")
    else ([], [])

/-- The batching loop of `notificarNuevoEscenario`:
`for (i = 0; i < tokens.length; i += 500) slice(i, i + 500)`. -/
def batches500 (l : List Val) : List (List Val) :=
  if h : l = [] then []
  else l.take 500 :: batches500 (l.drop 500)
termination_by l.length
decreasing_by
  simp only [List.length_drop]
  cases l with
  | nil => exact absurd rfl h
  | cons x xs => simp only [List.length_cons]; omega

/-- `notificarNuevoEscenario` (lines 945-969): on scenario creation, push
to every active device's token (any owner), in batches of at most 500
tokens per multicast call; no notification record is written. -/
def notificarNuevoEscenario (escenario : Doc) (dispositivos : List Doc) :
    List MulticastCall :=
  let tokens :=
    ((dispositivos.filter (fun d => d.get "activo" == some (Val.b true))).filterMap
      (fun d => d.get "token_fcm")).filter Val.truthy
  (batches500 tokens).map (fun bt =>
    ⟨bt, "¡Nuevo Escenario!",
     "Ven a conocer \x22" ++ jsStr (escenario.get "nombre") ++ "\x22",
     some (jsOr (escenario.get "img_principal") (Val.s ""))⟩)

/-! ## `recordatorioDiario` (reminder sweep, lines 996-1030) -/

/-- The sweep's selection query: appointments with `fecha` between the
start of the current day and the end of the day two days ahead, and
`estado_solicitud == 'aceptada'`. -/
def citasProximas (db : DB) (now : Int) : List (String × Doc) :=
  let hoy := startOfDay now
  let limite := endOfDay (addDays hoy 2)
  db.citas.filter (fun p =>
    (match p.2.get "fecha" with
     | some (Val.t f) => hoy ≤ f && f ≤ limite
     | _ => false) &&
    p.2.get "estado_solicitud" == some (Val.s "aceptada"))

/-- `recordatorioDiario`: for each selected appointment, resolve the owning
client's device tokens — the lookup filters by `uid_usuario` only, with no
`activo` clause — and, when at least one token resolves, make one multicast
reminder call and append one notification record; appointments whose client
yields no token contribute nothing.  Returns the records appended and the
calls made. -/
def recordatorioPaso (db : DB) (acc : List Notif × List MulticastCall)
    (p : String × Doc) : List Notif × List MulticastCall :=
  let uidV := p.2.get "uid_cliente"
  let tokens := tokensDe db.dispositivos uidV false
  if tokens.length > 0 then
    let bodyMsg := "Recuerda tu cita próxima en " ++ jsStr (p.2.get "escenario_nombre")
    (acc.1 ++ [⟨uidV, Val.s "Recordatorio", "recordatorio", bodyMsg, none⟩],
     acc.2 ++ [⟨tokens, "Recordatorio de Cita", bodyMsg, none⟩])
  else acc

def recordatorioDiario (db : DB) (now : Int) : List Notif × List MulticastCall :=
  (citasProximas db now).foldl (recordatorioPaso db) ([], [])

/-! ## Helper lemmas -/

theorem find?_filter_ne (d : Doc) (k k' : String) (h : k' ≠ k) :
    (d.filter (fun p => ¬ p.1 = k)).find? (fun p => p.1 = k') =
      d.find? (fun p => p.1 = k') := by
  induction d with
  | nil => rfl
  | cons p ps ih =>
    by_cases hp : p.1 = k
    · have hp' : ¬ p.1 = k' := fun hc => h (hc ▸ hp)
      rw [List.filter_cons, if_neg (by simp [hp]), List.find?_cons_of_neg _ (by simp [hp']), ih]
    · by_cases hp' : p.1 = k'
      · rw [List.filter_cons, if_pos (by simp [hp]), List.find?_cons_of_pos _ (by simp [hp']),
          List.find?_cons_of_pos _ (by simp [hp'])]
      · rw [List.filter_cons, if_pos (by simp [hp]), List.find?_cons_of_neg _ (by simp [hp']),
          List.find?_cons_of_neg _ (by simp [hp']), ih]

theorem Doc.get_set_self (d : Doc) (k : String) (v : Val) :
    (d.set k v).get k = some v := by
  simp only [Doc.get, Doc.set]
  rw [List.find?_cons_of_pos _ (by simp)]
  rfl

theorem Doc.get_set_ne (d : Doc) (k k' : String) (v : Val) (h : k' ≠ k) :
    (d.set k v).get k' = d.get k' := by
  simp only [Doc.get, Doc.set]
  rw [List.find?_cons_of_neg _ (by simp; exact fun hc => h hc.symm),
    find?_filter_ne d k k' h]

/-- The non-admin success test of `actualizarCita` — a single field that is
`estado_solicitud: 'rechazada'` — holds exactly of the one-entry field map. -/
theorem singleton_rechazada_iff (campos : Doc) :
    (campos.length = 1 ∧ campos.get "estado_solicitud" = some (Val.s "rechazada")) ↔
      campos = [("estado_solicitud", Val.s "rechazada")] := by
  constructor
  · rintro ⟨hl, hg⟩
    match campos, hl with
    | [(k, v)], _ =>
      by_cases hk : k = "estado_solicitud"
      · subst hk
        simp [Doc.get, List.find?_cons] at hg
        simp [hg]
      · simp [Doc.get, List.find?_cons, hk] at hg
  · rintro rfl
    exact ⟨rfl, rfl⟩

theorem mem_insertFecha {x y : String × Doc} {l : List (String × Doc)} :
    y ∈ insertFecha x l ↔ y = x ∨ y ∈ l := by
  induction l with
  | nil => simp [insertFecha]
  | cons z zs ih =>
    simp only [insertFecha]
    split
    · simp
    · simp [ih]
      tauto

theorem mem_sortByFecha {y : String × Doc} {l : List (String × Doc)} :
    y ∈ sortByFecha l ↔ y ∈ l := by
  induction l with
  | nil => simp [sortByFecha]
  | cons z zs ih =>
    simp only [sortByFecha, List.foldr_cons] at *
    rw [mem_insertFecha, ih]
    simp

theorem batches500_le (l : List Val) : ∀ b ∈ batches500 l, b.length ≤ 500 := by
  generalize hn : l.length = n
  induction n using Nat.strong_induction_on generalizing l with
  | _ n ih =>
    rw [batches500]
    split
    · simp
    · next hne =>
      intro b hb
      rcases List.mem_cons.mp hb with rfl | hb'
      · exact List.length_take_le 500 l
      · have hlt : (l.drop 500).length < n := by
          have : 0 < l.length := List.length_pos.mpr hne
          simp only [List.length_drop]
          omega
        exact ih (l.drop 500).length (hn ▸ hlt) (l.drop 500) rfl b hb'

/-! ## Claim theorems -/

/-- C4: `esAdministrador` returns false without performing any lookup when
the identity is absent (the result is false for every lookup function, so
no lookup outcome can influence it); on a lookup failure it returns false
rather than propagating the error; and on a successful lookup it returns
true iff at least one Administrator Membership record matches the
identity. -/
theorem esAdministrador_spec :
    (∀ q : String → Except Unit (List String), esAdministrador none q = false)
    ∧ (∀ (u : String) (q : String → Except Unit (List String)),
        u ≠ "" → q u = Except.error () → esAdministrador (some u) q = false)
    ∧ (∀ (u : String) (q : String → Except Unit (List String)) (docs : List String),
        u ≠ "" → q u = Except.ok docs →
        (esAdministrador (some u) q = true ↔ docs ≠ [])) := by
  refine ⟨fun q => rfl, fun u q hu hq => ?_, fun u q docs hu hq => ?_⟩
  · simp [esAdministrador, hu, hq]
  · simp [esAdministrador, hu, hq, List.isEmpty_iff]

theorem esAdministrador_spec_witness :
    esAdministrador (some "a") (fun _ => Except.ok ["a"]) = true ∧
    esAdministrador (some "a") (fun _ => Except.error ()) = false :=
  ⟨(esAdministrador_spec.2.2 "a" (fun _ => Except.ok ["a"]) ["a"] (by decide) rfl).mpr
      (by decide),
   esAdministrador_spec.2.1 "a" (fun _ => Except.error ()) (by decide) rfl⟩

/-- C1: for an update of an existing appointment via `actualizarCita`, a
non-admin caller who is not the owning client gets `permission-denied` for
any field set; the owning non-admin caller succeeds exactly when the field
set is the single field `estado_solicitud: 'rechazada'` — then exactly that
field plus `updatedAt` is written — and gets `permission-denied` for any
other field set; an administrator's update with any non-empty field set on
an existing id succeeds, applying the fields plus a refreshed
`updatedAt`. -/
theorem actualizarCita_access_spec
    (db : DB) (now : Int) (uid id : String) (campos : Doc) (pc : String × Doc)
    (hfind : db.citas.find? (fun p => p.1 = id) = some pc) :
    (esAdminDB db uid = false → ¬ pc.2.get "uid_cliente" = some (Val.s uid) →
      actualizarCita db now uid id campos = Except.error ECode.permissionDenied)
    ∧ (esAdminDB db uid = false → pc.2.get "uid_cliente" = some (Val.s uid) →
        (campos = [("estado_solicitud", Val.s "rechazada")] →
          actualizarCita db now uid id campos =
            Except.ok (db.updateCita id
              [("estado_solicitud", Val.s "rechazada"), ("updatedAt", Val.t now)]))
        ∧ (¬ campos = [("estado_solicitud", Val.s "rechazada")] →
            actualizarCita db now uid id campos = Except.error ECode.permissionDenied))
    ∧ (esAdminDB db uid = true → ¬ campos = [] →
        actualizarCita db now uid id campos =
          Except.ok (db.updateCita id (campos.set "updatedAt" (Val.t now)))) := by
  have hred : actualizarCita db now uid id campos =
      (if esAdminDB db uid then
        Except.ok (db.updateCita id (campos.set "updatedAt" (Val.t now)))
      else if ¬ pc.2.get "uid_cliente" = some (Val.s uid) then
        Except.error ECode.permissionDenied
      else if campos.length = 1 ∧ campos.get "estado_solicitud" = some (Val.s "rechazada") then
        Except.ok (db.updateCita id
          [("estado_solicitud", Val.s "rechazada"), ("updatedAt", Val.t now)])
      else Except.error ECode.permissionDenied) := by
    unfold actualizarCita
    rw [hfind]
  refine ⟨fun hadm hown => ?_, fun hadm hown => ⟨fun hc => ?_, fun hc => ?_⟩,
    fun hadm _ => ?_⟩
  · rw [hred, if_neg (by simp [hadm]), if_pos hown]
  · subst hc
    rw [hred, if_neg (by simp [hadm]), if_neg (not_not_intro hown), if_pos (by decide)]
  · have hns : ¬ (campos.length = 1 ∧ campos.get "estado_solicitud" = some (Val.s "rechazada")) :=
      fun hsing => hc ((singleton_rechazada_iff campos).mp hsing)
    rw [hred, if_neg (by simp [hadm]), if_neg (not_not_intro hown), if_neg hns]
  · rw [hred, if_pos hadm]

/-- Concrete store for the `actualizarCita` witness: one appointment owned
by client `u`, one administrator `adm`. -/
def dbEjemplo : DB :=
  ⟨[("c1", [("uid_cliente", Val.s "u"), ("estado_solicitud", Val.s "espera")])],
   ["adm"], [], []⟩

theorem actualizarCita_access_spec_witness :
    actualizarCita dbEjemplo 9 "v" "c1" [("x", Val.b true)] =
      Except.error ECode.permissionDenied ∧
    actualizarCita dbEjemplo 9 "u" "c1" [("estado_solicitud", Val.s "rechazada")] =
      Except.ok (dbEjemplo.updateCita "c1"
        [("estado_solicitud", Val.s "rechazada"), ("updatedAt", Val.t 9)]) ∧
    actualizarCita dbEjemplo 9 "u" "c1" [("estado_solicitud", Val.s "aceptada")] =
      Except.error ECode.permissionDenied ∧
    actualizarCita dbEjemplo 9 "adm" "c1" [("x", Val.b true)] =
      Except.ok (dbEjemplo.updateCita "c1"
        (Doc.set [("x", Val.b true)] "updatedAt" (Val.t 9))) :=
  ⟨(actualizarCita_access_spec dbEjemplo 9 "v" "c1" [("x", Val.b true)] _ rfl).1
      (by decide) (by decide),
   ((actualizarCita_access_spec dbEjemplo 9 "u" "c1" [("estado_solicitud", Val.s "rechazada")]
      _ rfl).2.1 (by decide) (by decide)).1 rfl,
   ((actualizarCita_access_spec dbEjemplo 9 "u" "c1" [("estado_solicitud", Val.s "aceptada")]
      _ rfl).2.1 (by decide) (by decide)).2 (by decide),
   (actualizarCita_access_spec dbEjemplo 9 "adm" "c1" [("x", Val.b true)] _ rfl).2.2
      (by decide) (by decide)⟩

/-- C10: a non-admin caller of `consultarCitas` only ever receives their
own appointments with `estado_solicitud` different from `'rechazada'`,
regardless of the filters supplied in the request. -/
theorem consultarCitas_owner_filter
    (db : DB) (uid : String) (a : ConsultaArgs)
    (hadmin : esAdminDB db uid = false) :
    ∀ p ∈ consultarCitas db uid a,
      p.2.get "uid_cliente" = some (Val.s uid) ∧
      ¬ p.2.get "estado_solicitud" = some (Val.s "rechazada") := by
  intro p hp
  have hpos : p ∈ consultaPosicionada db uid a := by
    unfold consultarCitas at hp
    by_cases hl : a.limit = 0
    · rwa [if_pos hl] at hp
    · rw [if_neg hl] at hp
      exact List.take_subset _ _ hp
  have hord : p ∈ consultaOrdenada db uid a := by
    cases hld : a.lastDocId with
    | none => simpa only [consultaPosicionada, hld] using hpos
    | some lid =>
      simp only [consultaPosicionada, hld] at hpos
      split at hpos
      all_goals first
        | exact hpos
        | exact (List.dropWhile_sublist _).subset (List.drop_subset _ _ hpos)
  have hbase : p ∈ consultaBase db uid a := by
    unfold consultaOrdenada at hord
    exact (List.mem_filter.mp (mem_sortByFecha.mp hord)).1
  unfold consultaBase at hbase
  rw [if_neg (by simp [hadmin])] at hbase
  obtain ⟨_, hpred⟩ := List.mem_filter.mp hbase
  rw [Bool.and_eq_true] at hpred
  obtain ⟨h1, h2⟩ := hpred
  refine ⟨eq_of_beq h1, fun hc => ?_⟩
  rw [hc] at h2
  simp at h2

theorem consultarCitas_owner_filter_witness :
    Doc.get [("uid_cliente", Val.s "u"), ("estado_solicitud", Val.s "espera"),
      ("fecha", Val.t 5)] "uid_cliente" = some (Val.s "u") ∧
    ¬ Doc.get [("uid_cliente", Val.s "u"), ("estado_solicitud", Val.s "espera"),
      ("fecha", Val.t 5)] "estado_solicitud" = some (Val.s "rechazada") :=
  consultarCitas_owner_filter
    ⟨[("c1", [("uid_cliente", Val.s "u"), ("estado_solicitud", Val.s "espera"),
        ("fecha", Val.t 5)])], [], [], []⟩
    "u" ⟨some "v", none, 20, none⟩ (by decide)
    ("c1", [("uid_cliente", Val.s "u"), ("estado_solicitud", Val.s "espera"),
        ("fecha", Val.t 5)])
    (by decide)

set_option maxRecDepth 4000 in
/-- C8 counterexample: when the owning client resolves 501 device tokens,
the status-change notifier passes all 501 tokens to a single multicast
call — no batching at 500 happens on this path. -/
theorem notificarCambioCita_batching_counterexample :
    ((notificarCambioCita
        [("estado_solicitud", Val.s "espera")]
        [("estado_solicitud", Val.s "aceptada"), ("uid_cliente", Val.s "u")]
        (List.replicate 501
          [("uid_usuario", Val.s "u"), ("activo", Val.b true),
           ("token_fcm", Val.s "t")])).2.map (fun c => c.tokens.length)) = [501] := by
  decide

/-- C8 (amended): only the new-scenario broadcast batches its multicast
calls — each of its calls carries at most 500 tokens; the status-change
notifier instead passes the entire resolved token set of the client in a
single call, with no batching. -/
theorem multicast_batching_spec :
    (∀ (escenario : Doc) (dispositivos : List Doc),
      ∀ c ∈ notificarNuevoEscenario escenario dispositivos, c.tokens.length ≤ 500)
    ∧ (∀ (oldD newD : Doc) (dispositivos : List Doc),
        ∀ c ∈ (notificarCambioCita oldD newD dispositivos).2,
          c.tokens = tokensDe dispositivos (newD.get "uid_cliente") true) := by
  constructor
  · intro esc disp c hc
    unfold notificarNuevoEscenario at hc
    obtain ⟨bt, hbt, rfl⟩ := List.mem_map.mp hc
    exact batches500_le _ bt hbt
  · intro oldD newD disp c hc
    simp only [notificarCambioCita] at hc
    split at hc
    · simp at hc
    · split at hc
      · split at hc
        · rw [List.mem_singleton.mp hc]
        · simp at hc
      · split at hc
        · split at hc
          · rw [List.mem_singleton.mp hc]
          · simp at hc
        · simp at hc

/-- An appointment of client `u` with request-status `rechazada`, created
at instant `c` (concrete document for the creation-gate tests). -/
def citaRechazo (c : Int) : Doc :=
  [("uid_cliente", Val.s "u"), ("estado_solicitud", Val.s "rechazada"),
   ("createdAt", Val.t c), ("fecha", Val.t (instant 2026 1 10 0))]

/-- 2026-03-28 12:00, the reference instant of the creation-gate tests. -/
def nowEj : Int := instant 2026 3 28 43200000

/-- Two rejections created 29 days before `nowEj` — inside the trailing
30 days, but before `subMonths nowEj 1 = 2026-02-28 12:00`. -/
def dbRechazosViejos : DB :=
  ⟨[("r1", citaRechazo (instant 2026 2 27 43200000)),
    ("r2", citaRechazo (instant 2026 2 27 43200000))], [], [], []⟩

/-- Two rejections created 8 days before `nowEj`. -/
def dbRechazosNuevos : DB :=
  ⟨[("r1", citaRechazo (instant 2026 3 20 43200000)),
    ("r2", citaRechazo (instant 2026 3 20 43200000))], [], [], []⟩

/-- C2 counterexample: at 2026-03-28 12:00 a caller with two rejected
appointments created 29 days earlier — within the trailing 30 days the
claim describes — is not blocked: the code's window is
`createdAt >= subMonths(now, 1)` = 2026-02-28 12:00, which excludes both,
so the call runs both gates and writes the appointment instead of failing
with `failed-precondition`. -/
theorem crearCita_trailing30_counterexample :
    2 ≤ (rechazosUlt30Dias dbRechazosViejos "u" nowEj).length ∧
    ¬ (crearCita dbRechazosViejos nowEj (some "u")
        (JsDateField.strVal (some (instant 2026 6 1 36000000))) []).res =
      Except.error ECode.failedPrecondition ∧
    (crearCita dbRechazosViejos nowEj (some "u")
        (JsDateField.strVal (some (instant 2026 6 1 36000000))) []).trace =
      [Ev.queryRechazos, Ev.queryDia, Ev.writeCita] := by
  decide

/-- C2 (amended): when at least 2 of the caller's appointments are
`rechazada` with creation timestamp at or after `subMonths(now, 1)` (one
calendar month back, day of month clamped — not a 30-day window), the
call fails with `failed-precondition` regardless of the requested date,
after only the rejection-history query: no appointment is written. -/
theorem crearCita_rejection_gate
    (db : DB) (now : Int) (uid : String) (p : Option Int) (otros : Doc)
    (h : (rechazosRecientes db uid now).length ≥ 2) :
    crearCita db now (some uid) (JsDateField.strVal p) otros =
      ⟨Except.error ECode.failedPrecondition, [Ev.queryRechazos]⟩ := by
  simp only [crearCita]
  rw [if_pos h]

theorem crearCita_rejection_gate_witness :
    crearCita dbRechazosNuevos nowEj (some "u")
      (JsDateField.strVal (some (instant 2026 6 1 36000000))) [] =
      ⟨Except.error ECode.failedPrecondition, [Ev.queryRechazos]⟩ :=
  crearCita_rejection_gate dbRechazosNuevos nowEj "u"
    (some (instant 2026 6 1 36000000)) [] (by decide)

/-- C3: when the rejection gate passes and the caller already holds an
appointment — any status — whose date falls in the requested date's
`[startOfDay, endOfDay]` window, `crearCita` fails with `already-exists`
and performs no write; moreover on every run the event trace is a prefix
of rejection-query, day-query, write, so the rejection gate is evaluated
before the one-per-day gate and both gates complete before any write. -/
theorem crearCita_one_per_day_gate :
    (∀ (db : DB) (now : Int) (uid : String) (f : Int) (otros : Doc),
      ¬ (rechazosRecientes db uid now).length ≥ 2 →
      ¬ (citasDelDia db uid f).isEmpty = true →
      crearCita db now (some uid) (JsDateField.strVal (some f)) otros =
        ⟨Except.error ECode.alreadyExists, [Ev.queryRechazos, Ev.queryDia]⟩)
    ∧ (∀ (db : DB) (now : Int) (auth : Option String) (fecha : JsDateField) (otros : Doc),
        (crearCita db now auth fecha otros).trace = [] ∨
        (crearCita db now auth fecha otros).trace = [Ev.queryRechazos] ∨
        (crearCita db now auth fecha otros).trace = [Ev.queryRechazos, Ev.queryDia] ∨
        (crearCita db now auth fecha otros).trace =
          [Ev.queryRechazos, Ev.queryDia, Ev.writeCita]) := by
  constructor
  · intro db now uid f otros h1 h2
    simp only [crearCita]
    rw [if_neg h1, if_pos h2]
  · intro db now auth fecha otros
    cases auth with
    | none => simp [crearCita]
    | some uid =>
      cases fecha with
      | undef => simp [crearCita]
      | nonString => simp [crearCita]
      | strVal parsed =>
        by_cases h1 : (rechazosRecientes db uid now).length ≥ 2
        · simp [crearCita, h1]
        · cases parsed with
          | none => simp [crearCita, h1]
          | some f =>
            by_cases h2 : (citasDelDia db uid f).isEmpty = true
            · simp [crearCita, h1, h2]
            · simp [crearCita, h1, h2]

/-- One waiting appointment of client `u` on 2026-06-01. -/
def dbCitaMismoDia : DB :=
  ⟨[("c1", [("uid_cliente", Val.s "u"), ("estado_solicitud", Val.s "espera"),
      ("createdAt", Val.t nowEj), ("fecha", Val.t (instant 2026 6 1 36000000))])],
   [], [], []⟩

theorem crearCita_one_per_day_gate_witness :
    crearCita dbCitaMismoDia nowEj (some "u")
      (JsDateField.strVal (some (instant 2026 6 1 64800000))) [] =
      ⟨Except.error ECode.alreadyExists, [Ev.queryRechazos, Ev.queryDia]⟩ :=
  crearCita_one_per_day_gate.1 dbCitaMismoDia nowEj "u" (instant 2026 6 1 64800000) []
    (by decide) (by decide)

/-- The fields `crearCita` stamps on every persisted appointment. -/
theorem nuevaCitaDoc_get (otros : Doc) (uid : String) (f now : Int) :
    (nuevaCitaDoc otros uid f now).get "estado_solicitud" = some (Val.s "espera") ∧
    (nuevaCitaDoc otros uid f now).get "estado_atendida" = some (Val.s "espera") ∧
    (nuevaCitaDoc otros uid f now).get "uid_cliente" = some (Val.s uid) ∧
    (nuevaCitaDoc otros uid f now).get "createdAt" = some (Val.t now) ∧
    (nuevaCitaDoc otros uid f now).get "updatedAt" = some (Val.t now) ∧
    (nuevaCitaDoc otros uid f now).get "fecha" = some (Val.t f) := by
  unfold nuevaCitaDoc
  refine ⟨?_, ?_, ?_, ?_, ?_, ?_⟩
  · rw [Doc.get_set_ne _ _ _ _ (by decide), Doc.get_set_ne _ _ _ _ (by decide),
      Doc.get_set_ne _ _ _ _ (by decide), Doc.get_set_self]
  · rw [Doc.get_set_ne _ _ _ _ (by decide), Doc.get_set_ne _ _ _ _ (by decide),
      Doc.get_set_self]
  · rw [Doc.get_set_ne _ _ _ _ (by decide), Doc.get_set_ne _ _ _ _ (by decide),
      Doc.get_set_ne _ _ _ _ (by decide), Doc.get_set_ne _ _ _ _ (by decide),
      Doc.get_set_ne _ _ _ _ (by decide), Doc.get_set_self]
  · rw [Doc.get_set_ne _ _ _ _ (by decide), Doc.get_set_self]
  · rw [Doc.get_set_self]
  · rw [Doc.get_set_ne _ _ _ _ (by decide), Doc.get_set_ne _ _ _ _ (by decide),
      Doc.get_set_ne _ _ _ _ (by decide), Doc.get_set_ne _ _ _ _ (by decide),
      Doc.get_set_self]

/-- C6: every successful `crearCita` call was made by an authenticated
caller with a parseable date string, and the persisted appointment has
both statuses `espera`, the owner stamped to the caller's identity
(overriding any client-supplied owner field in the payload), server-time
creation/update stamps, and the requested date normalized to the parsed
instant. -/
theorem crearCita_success_doc
    (db : DB) (now : Int) (auth : Option String) (fecha : JsDateField) (otros : Doc)
    (db' : DB) (d : Doc)
    (h : (crearCita db now auth fecha otros).res = Except.ok (db', d)) :
    ∃ uid f, auth = some uid ∧ fecha = JsDateField.strVal (some f) ∧
      d.get "estado_solicitud" = some (Val.s "espera") ∧
      d.get "estado_atendida" = some (Val.s "espera") ∧
      d.get "uid_cliente" = some (Val.s uid) ∧
      d.get "createdAt" = some (Val.t now) ∧
      d.get "updatedAt" = some (Val.t now) ∧
      d.get "fecha" = some (Val.t f) := by
  cases auth with
  | none => simp [crearCita] at h
  | some uid =>
    cases fecha with
    | undef => simp [crearCita] at h
    | nonString => simp [crearCita] at h
    | strVal parsed =>
      by_cases h1 : (rechazosRecientes db uid now).length ≥ 2
      · simp [crearCita, h1] at h
      · cases parsed with
        | none => simp [crearCita, h1] at h
        | some f =>
          by_cases h2 : (citasDelDia db uid f).isEmpty = true
          · have hd : d = nuevaCitaDoc otros uid f now := by
              simp [crearCita, h1, h2] at h
              exact h.2.symm
            subst hd
            exact ⟨uid, f, rfl, rfl, nuevaCitaDoc_get otros uid f now⟩
          · simp [crearCita, h1, h2] at h

theorem crearCita_success_doc_witness :
    ∃ uid f, (some "u" : Option String) = some uid ∧
      JsDateField.strVal (some 99) = JsDateField.strVal (some f) ∧
      (nuevaCitaDoc [("uid_cliente", Val.s "evil")] "u" 99 7).get "estado_solicitud" =
        some (Val.s "espera") ∧
      (nuevaCitaDoc [("uid_cliente", Val.s "evil")] "u" 99 7).get "estado_atendida" =
        some (Val.s "espera") ∧
      (nuevaCitaDoc [("uid_cliente", Val.s "evil")] "u" 99 7).get "uid_cliente" =
        some (Val.s uid) ∧
      (nuevaCitaDoc [("uid_cliente", Val.s "evil")] "u" 99 7).get "createdAt" =
        some (Val.t 7) ∧
      (nuevaCitaDoc [("uid_cliente", Val.s "evil")] "u" 99 7).get "updatedAt" =
        some (Val.t 7) ∧
      (nuevaCitaDoc [("uid_cliente", Val.s "evil")] "u" 99 7).get "fecha" =
        some (Val.t f) :=
  crearCita_success_doc ⟨[], [], [], []⟩ 7 (some "u") (JsDateField.strVal (some 99))
    [("uid_cliente", Val.s "evil")]
    ⟨[("0", nuevaCitaDoc [("uid_cliente", Val.s "evil")] "u" 99 7)], [], [], []⟩
    (nuevaCitaDoc [("uid_cliente", Val.s "evil")] "u" 99 7)
    (by decide)

/-- C7 counterexample: with an unparseable date string the call is not
rejected with `invalid-argument` and not before the gate queries — the
type check only requires a string, so the rejection-history query runs and
the call then fails with `internal` when the invalid date reaches the
day-window query. -/
theorem crearCita_preconditions_counterexample :
    (crearCita ⟨[], [], [], []⟩ nowEj (some "u") (JsDateField.strVal none) []).res =
      Except.error ECode.internal ∧
    ¬ (crearCita ⟨[], [], [], []⟩ nowEj (some "u") (JsDateField.strVal none) []).res =
      Except.error ECode.invalidArgument ∧
    (crearCita ⟨[], [], [], []⟩ nowEj (some "u") (JsDateField.strVal none) []).trace =
      [Ev.queryRechazos] := by
  decide

/-- C7 (amended): an unauthenticated call fails with `unauthenticated`
before any query or write; a missing or non-string date value fails with
`invalid-argument` before any query or write; a date string that does not
parse passes the type check, and (when the rejection gate does not fire
first) the call fails with `internal` after the rejection-history query. -/
theorem crearCita_preconditions :
    (∀ (db : DB) (now : Int) (fecha : JsDateField) (otros : Doc),
      crearCita db now none fecha otros = ⟨Except.error ECode.unauthenticated, []⟩)
    ∧ (∀ (db : DB) (now : Int) (uid : String) (otros : Doc),
        crearCita db now (some uid) JsDateField.undef otros =
          ⟨Except.error ECode.invalidArgument, []⟩ ∧
        crearCita db now (some uid) JsDateField.nonString otros =
          ⟨Except.error ECode.invalidArgument, []⟩)
    ∧ (∀ (db : DB) (now : Int) (uid : String) (otros : Doc),
        ¬ (rechazosRecientes db uid now).length ≥ 2 →
        crearCita db now (some uid) (JsDateField.strVal none) otros =
          ⟨Except.error ECode.internal, [Ev.queryRechazos]⟩) := by
  refine ⟨fun db now fecha otros => rfl, fun db now uid otros => ⟨rfl, rfl⟩,
    fun db now uid otros h1 => ?_⟩
  simp only [crearCita]
  rw [if_neg h1]

theorem crearCita_preconditions_witness :
    crearCita ⟨[], [], [], []⟩ 0 (some "u") (JsDateField.strVal none) [] =
      ⟨Except.error ECode.internal, [Ev.queryRechazos]⟩ :=
  crearCita_preconditions.2.2 ⟨[], [], [], []⟩ 0 "u" [] (by decide)

theorem multicast_batching_spec_witness :
    MulticastCall.tokens
      ⟨[Val.s "t1"], "Bosque", "Tu cita para Bosque ha sido confirmada.",
        some (Val.s "img1")⟩ =
      tokensDe [[("uid_usuario", Val.s "u"), ("activo", Val.b true),
          ("token_fcm", Val.s "t1")]]
        (Doc.get [("estado_solicitud", Val.s "aceptada"), ("uid_cliente", Val.s "u"),
          ("escenario_nombre", Val.s "Bosque"), ("escenario_img_principal", Val.s "img1")]
          "uid_cliente") true :=
  multicast_batching_spec.2
    [("estado_solicitud", Val.s "espera")]
    [("estado_solicitud", Val.s "aceptada"), ("uid_cliente", Val.s "u"),
     ("escenario_nombre", Val.s "Bosque"), ("escenario_img_principal", Val.s "img1")]
    [[("uid_usuario", Val.s "u"), ("activo", Val.b true), ("token_fcm", Val.s "t1")]]
    _ (by decide)

/-- Every run of the status-change notifier makes at most one multicast
call, whatever the documents and devices are. -/
theorem notificarCambioCita_calls_le_one (oldD newD : Doc) (devs : List Doc) :
    (notificarCambioCita oldD newD devs).2.length ≤ 1 := by
  unfold notificarCambioCita
  split
  · simp
  · split
    · dsimp only
      split
      · simp
      · simp
    · split
      · dsimp only
        split
        · simp
        · simp
      · simp

/-- C5: on an appointment update whose `estado_solicitud` is unchanged, no
notification record is written and no push is sent; when it changed to
`aceptada` or `rechazada`, exactly one record is written — recipient the
owning client, title the scenario name, category `Confirmación`, a
templated body naming the scenario, image the scenario's principal image —
and at most one push-gateway call is made; when it changed to any other
value, nothing is produced. -/
theorem notificarCambioCita_spec :
    (∀ (oldD newD : Doc) (devs : List Doc),
      newD.get "estado_solicitud" = oldD.get "estado_solicitud" →
      notificarCambioCita oldD newD devs = ([], []))
    ∧ (∀ (oldD newD : Doc) (devs : List Doc) (uidV img : Val) (nombre : String),
        ¬ newD.get "estado_solicitud" = oldD.get "estado_solicitud" →
        (newD.get "estado_solicitud" = some (Val.s "aceptada") ∨
          newD.get "estado_solicitud" = some (Val.s "rechazada")) →
        newD.get "uid_cliente" = some uidV →
        newD.get "escenario_nombre" = some (Val.s nombre) →
        ¬ nombre = "" →
        newD.get "escenario_img_principal" = some img →
        (notificarCambioCita oldD newD devs).1 =
          [⟨some uidV, Val.s nombre, "Confirmación",
            (if newD.get "estado_solicitud" = some (Val.s "aceptada") then
              "Tu cita para " ++ nombre ++ " ha sido confirmada."
            else
              "Tu cita para " ++ nombre ++ " ha sido rechazada."), some img⟩] ∧
        (notificarCambioCita oldD newD devs).2.length ≤ 1)
    ∧ (∀ (oldD newD : Doc) (devs : List Doc),
        ¬ newD.get "estado_solicitud" = oldD.get "estado_solicitud" →
        ¬ newD.get "estado_solicitud" = some (Val.s "aceptada") →
        ¬ newD.get "estado_solicitud" = some (Val.s "rechazada") →
        notificarCambioCita oldD newD devs = ([], [])) := by
  refine ⟨fun oldD newD devs h => ?_, fun oldD newD devs uidV img nombre hne hst huid hnom hnom0 himg => ?_,
    fun oldD newD devs hne hacc hrej => ?_⟩
  · simp [notificarCambioCita, h]
  · have htit : jsOr (newD.get "escenario_nombre") (Val.s "Cita") = Val.s nombre := by
      rw [hnom]
      simp [jsOr, Val.truthy, hnom0]
    refine ⟨?_, notificarCambioCita_calls_le_one oldD newD devs⟩
    rcases hst with hacc | hrej
    · rw [if_pos hacc]
      simp [notificarCambioCita, htit, huid, himg, hacc, Val.asStr]
      rw [if_neg (hacc ▸ hne)]
    · have hacc' : ¬ newD.get "estado_solicitud" = some (Val.s "aceptada") := by
        rw [hrej]
        simp
      rw [if_neg hacc']
      simp [notificarCambioCita, htit, huid, himg, hrej, hacc', Val.asStr]
      rw [if_neg (hrej ▸ hne)]
  · have hneq : (newD.get "estado_solicitud" == oldD.get "estado_solicitud") = false := by
      simp [hne]
    have ha : (newD.get "estado_solicitud" == some (Val.s "aceptada")) = false := by
      simp [hacc]
    have hr : (newD.get "estado_solicitud" == some (Val.s "rechazada")) = false := by
      simp [hrej]
    simp [notificarCambioCita, hneq, ha, hr]

/-- Before/after documents and device list for the status-change witness. -/
def citaAntes : Doc :=
  [("estado_solicitud", Val.s "espera"), ("uid_cliente", Val.s "u"),
   ("escenario_nombre", Val.s "Bosque"), ("escenario_img_principal", Val.s "img1")]

def citaDespues : Doc :=
  [("estado_solicitud", Val.s "aceptada"), ("uid_cliente", Val.s "u"),
   ("escenario_nombre", Val.s "Bosque"), ("escenario_img_principal", Val.s "img1")]

def dispositivosEj : List Doc :=
  [[("uid_usuario", Val.s "u"), ("activo", Val.b true), ("token_fcm", Val.s "t1")],
   [("uid_usuario", Val.s "u"), ("activo", Val.b false), ("token_fcm", Val.s "t2")]]

theorem notificarCambioCita_spec_witness :
    (notificarCambioCita citaAntes citaDespues dispositivosEj).1 =
      [⟨some (Val.s "u"), Val.s "Bosque", "Confirmación",
        (if Doc.get citaDespues "estado_solicitud" = some (Val.s "aceptada") then
          "Tu cita para " ++ "Bosque" ++ " ha sido confirmada."
        else
          "Tu cita para " ++ "Bosque" ++ " ha sido rechazada."), some (Val.s "img1")⟩] ∧
    (notificarCambioCita citaAntes citaDespues dispositivosEj).2.length ≤ 1 :=
  notificarCambioCita_spec.2.1 citaAntes citaDespues dispositivosEj
    (Val.s "u") (Val.s "img1") "Bosque" (by decide) (Or.inl (by decide))
    (by decide) (by decide) (by decide) (by decide)

/-- The reminder sweep's fold, written out: one record and one call per
processed appointment whose client resolves at least one token, nothing
for the others. -/
theorem recordatorio_foldl (db : DB) (l : List (String × Doc))
    (acc : List Notif × List MulticastCall) :
    l.foldl (recordatorioPaso db) acc =
      (acc.1 ++ (l.filter (fun p =>
          0 < (tokensDe db.dispositivos (p.2.get "uid_cliente") false).length)).map
        (fun p => ⟨p.2.get "uid_cliente", Val.s "Recordatorio", "recordatorio",
          "Recuerda tu cita próxima en " ++ jsStr (p.2.get "escenario_nombre"), none⟩),
       acc.2 ++ (l.filter (fun p =>
          0 < (tokensDe db.dispositivos (p.2.get "uid_cliente") false).length)).map
        (fun p => ⟨tokensDe db.dispositivos (p.2.get "uid_cliente") false,
          "Recordatorio de Cita",
          "Recuerda tu cita próxima en " ++ jsStr (p.2.get "escenario_nombre"), none⟩)) := by
  induction l generalizing acc with
  | nil => simp
  | cons p ps ih =>
    rw [List.foldl_cons, ih]
    unfold recordatorioPaso
    by_cases hp : (tokensDe db.dispositivos (p.2.get "uid_cliente") false).length > 0
    · rw [if_pos hp]
      simp [List.filter_cons, hp, List.append_assoc]
    · rw [if_neg hp]
      simp [List.filter_cons, hp]

/-- C9 (amended): each run selects exactly the appointments with date in
the window from the start of the current day to the end of the day two
days ahead and `estado_solicitud = 'aceptada'`; for each such appointment
it resolves the owning client's device tokens with no filter on the
active flag, and only when at least one token resolves does it send one
reminder push and append one notification record; an appointment whose
client resolves no token at all produces neither. -/
theorem recordatorioDiario_spec (db : DB) (now : Int) :
    (∀ p, p ∈ citasProximas db now ↔
      (p ∈ db.citas ∧
        (∃ f, p.2.get "fecha" = some (Val.t f) ∧ startOfDay now ≤ f ∧
          f ≤ endOfDay (addDays (startOfDay now) 2)) ∧
        p.2.get "estado_solicitud" = some (Val.s "aceptada")))
    ∧ recordatorioDiario db now =
      (((citasProximas db now).filter (fun p =>
          0 < (tokensDe db.dispositivos (p.2.get "uid_cliente") false).length)).map
        (fun p => ⟨p.2.get "uid_cliente", Val.s "Recordatorio", "recordatorio",
          "Recuerda tu cita próxima en " ++ jsStr (p.2.get "escenario_nombre"), none⟩),
       ((citasProximas db now).filter (fun p =>
          0 < (tokensDe db.dispositivos (p.2.get "uid_cliente") false).length)).map
        (fun p => ⟨tokensDe db.dispositivos (p.2.get "uid_cliente") false,
          "Recordatorio de Cita",
          "Recuerda tu cita próxima en " ++ jsStr (p.2.get "escenario_nombre"), none⟩)) := by
  constructor
  · intro p
    simp only [citasProximas]
    rw [List.mem_filter, Bool.and_eq_true]
    constructor
    · rintro ⟨hm, hw, hs⟩
      refine ⟨hm, ?_, eq_of_beq hs⟩
      cases hg : p.2.get "fecha" with
      | none => rw [hg] at hw; simp at hw
      | some v =>
        cases v with
        | s vv => rw [hg] at hw; simp at hw
        | b vv => rw [hg] at hw; simp at hw
        | t f =>
          rw [hg] at hw
          simp only [Bool.and_eq_true, decide_eq_true_eq] at hw
          exact ⟨f, rfl, hw.1, hw.2⟩
    · rintro ⟨hm, ⟨f, hf, h1, h2⟩, hs⟩
      refine ⟨hm, ?_, ?_⟩
      · rw [hf]
        simp [h1, h2]
      · rw [hs]
        simp
  · unfold recordatorioDiario
    rw [recordatorio_foldl]
    simp

/-- Store for the reminder counterexample: one accepted appointment the
day after `nowEj`, whose client's only device is inactive but has a
token. -/
def dbRecordatorio : DB :=
  ⟨[("c", [("uid_cliente", Val.s "u"), ("estado_solicitud", Val.s "aceptada"),
      ("fecha", Val.t (instant 2026 3 29 36000000)), ("escenario_nombre", Val.s "Bosque")])],
   [], [[("uid_usuario", Val.s "u"), ("activo", Val.b false), ("token_fcm", Val.s "t9")]], []⟩

/-- C9 counterexample: the client of the selected appointment has no
active device token — the active-filtered resolution is empty — yet the
sweep still sends one reminder push and appends one notification record,
because the device lookup does not filter on the active flag. -/
theorem recordatorioDiario_activo_counterexample :
    tokensDe dbRecordatorio.dispositivos (some (Val.s "u")) true = [] ∧
    (recordatorioDiario dbRecordatorio nowEj).1.length = 1 ∧
    (recordatorioDiario dbRecordatorio nowEj).2.length = 1 := by
  decide

end Enfoque
